import Mathlib

/-!
Verification of the topology-resolution and manifest-synthesis engine of
`jina/peapods/pods/config.py` (class `PodConfig`), shallowly embedded in Lean.

Modelling conventions:
* An argparse `Namespace` carrying a Pod specification is the record `Args`;
  Python attribute assignment becomes a functional record update on the binding
  that stands for the assigned object.  `copy.copy` / `copy.deepcopy` both
  become value copies (Lean values are immutable); where a claim is about
  aliasing, the relevant fact is which binding each source assignment targets.
* Fallible Python code (attribute access on `None`, list indexing, a failed
  network request) is embedded in `Except PyError`.
* The one effect, the Docker-registry version lookup, is embedded in the
  counting monad `CountM` (state = number of lookups performed so far), with
  the network outcome supplied as an explicit `Except Unit (List String)`
  parameter (the fetched tag list, or a request failure).
* The f-string on line 233 of the source interpolates `self.k8s_namespace`,
  which is a plain method (no `@property` on line 305), i.e. a bound-method
  object; Python renders it as "<bound method PodConfig.k8s_namespace of
  OBJ>" where OBJ is the object's repr (address-dependent).  The embedding
  keeps that repr as the explicit parameter `objRepr`.
-/

/-- Modelled from the spec: the three distinct well-known ports of
`K8sGrpcConnectionPool` (module `jina/peapods/networking.py`, not in src):
head ingress, pre-filter ingress, post-filter ingress. -/
def K8S_PORT_IN : Int := 8081

/-- Modelled from the spec: pre-filter ingress port (networking module not in src). -/
def K8S_PORT_USES_BEFORE : Int := 8082

/-- Modelled from the spec: post-filter ingress port (networking module not in src). -/
def K8S_PORT_USES_AFTER : Int := 8083

/-- Modelled from the spec: the role vocabulary (module `jina/enums.py` not in
src); only the constructors the engine touches are needed. -/
inductive PeaRoleType where
  | SINGLETON
  | HEAD
  | WORKER
  | GATEWAY
  deriving DecidableEq, Repr

/-- Modelled from the spec: the platform default processing-unit reference
(`jina.__default_executor__`, top-level package constant not in src). -/
def default_executor : String := "BaseExecutor"

/-- The argparse `Namespace` of a Pod specification: one field per attribute
that `config.py` reads or writes.  Fields the source reads through
`getattr(..., default)` are modelled as always-present fields with the
corresponding content (the claims only concern specs built by the full
parser, where these attributes exist). -/
structure Args where
  name : String
  shards : Int
  replicas : Int
  uses : String
  uses_before : Option String
  uses_after : Option String
  uses_with : Option String
  k8s_connection_pool : Bool
  k8s_namespace : String
  port_in : Int
  port_expose : Int
  pea_role : PeaRoleType
  runtime_cls : String
  shard_id : Option Int
  connection_list : Option String
  uses_before_address : Option String
  uses_after_address : Option String
  env : Option String
  gpus : Option String
  k8s_custom_resource_dir : Option String
  pods_addresses : Option (List String)
  deriving DecidableEq, Repr

/-- Python exceptions the embedded fragment can raise. -/
inductive PyError where
  | attributeError (attr : String)
  | indexError
  | requestError
  deriving DecidableEq, Repr

/-- Result record of `PodConfig._get_deployment_args`. -/
structure ParsedArgs where
  head_deployment : Option Args
  deployments : List Args
  deriving DecidableEq, Repr

/-- Python truthiness of an optional string (`None` and `''` are falsy). -/
def truthy : Option String → Bool
  | none => false
  | some s => s != ""

/-- Python `range(n)` over a possibly negative int: empty for `n ≤ 0`. -/
def pyRange (n : Int) : List Int := (List.range n.toNat).map Int.ofNat

/-- Python `s[:-1]`: drop the last character (empty string stays empty). -/
def pyDropLast (s : String) : String := s.dropRight 1

/-- Python `str()` of the bound method `self.k8s_namespace` (the source
interpolates the method object, not its return value).  `objRepr` is the
repr of the pod object, which embeds its memory address. -/
def boundMethodText (objRepr : String) : String :=
  "<bound method PodConfig.k8s_namespace of " ++ objRepr ++ ">"

/-- Lines 230-235 of the source: the manual connection-list string.  `nsText`
is whatever text the f-string interpolates for `self.k8s_namespace`. -/
def connection_list_string (selfName nsText : String) (shards : Int) : String :=
  let body := (pyRange shards).foldl (fun acc i =>
    let nm := if shards > 1 then selfName ++ "-" ++ toString i else selfName
    acc ++ "\"" ++ toString i ++ "\": \"" ++ nm ++ "." ++ nsText ++ ".svc:"
      ++ toString K8S_PORT_IN ++ "\",") "\x7b"
  pyDropLast body ++ "\x7d"

/-- `PodConfig._get_deployment_args` (lines 212-262).  `selfName` is
`self.name`, `objRepr` the pod object's repr (see `boundMethodText`),
`args` the spec passed in (`self.args` at every call site). -/
def _get_deployment_args (selfName objRepr : String) (args : Args) :
    Except PyError ParsedArgs :=
  let shards := args.shards
  let uses_before := args.uses_before
  let uses_after := args.uses_after
  -- lines 221-237: build the head argument set on a copy of `args`
  let head0 : Option Args :=
    if args.name != "gateway" then
      let h := args
      let h := { h with replicas := 1, runtime_cls := "HeadRuntime",
                        pea_role := PeaRoleType.HEAD, port_in := K8S_PORT_IN }
      if !args.k8s_connection_pool then
        let cl := connection_list_string selfName (boundMethodText objRepr) shards
        some { h with connection_list := some cl }
      else some h
    else none
  -- lines 239-244: unconditional attribute write on the head entry (None for
  -- a gateway pod, hence AttributeError)
  let step1 : Except PyError (Option Args) :=
    if truthy uses_before then
      match head0 with
      | none => .error (.attributeError "uses_before_address")
      | some h =>
        let addr := "127.0.0.1:" ++ toString K8S_PORT_USES_BEFORE
        .ok (some { h with uses_before_address := some addr })
    else .ok head0
  match step1 with
  | .error e => .error e
  | .ok head1 =>
    -- lines 245-250
    let step2 : Except PyError (Option Args) :=
      if truthy uses_after then
        match head1 with
        | none => .error (.attributeError "uses_after_address")
        | some h =>
          let addr := "127.0.0.1:" ++ toString K8S_PORT_USES_AFTER
          .ok (some { h with uses_after_address := some addr })
      else .ok head1
    match step2 with
    | .error e => .error e
    | .ok head2 =>
      -- lines 252-260: one deep copy of `args` per shard
      let deployments := (pyRange shards).map (fun i =>
        { args with shard_id := some i, uses_before := none, uses_after := none,
                    port_in := K8S_PORT_IN,
                    pea_role := if args.name == "gateway" then PeaRoleType.GATEWAY
                                else args.pea_role })
      .ok { head_deployment := head2, deployments := deployments }

/-- Modelled from the spec: the platform naming normalizer `toServiceName`
(`kubernetes_deployment.to_dns_name`, k8slib not in src): lowercase and
hyphenate the raw unit name. -/
def to_dns_name (s : String) : String :=
  (s.map (fun c => if c = '_' then '-' else c)).toLower

/-- The value object `PodConfig._K8sDeployment` (lines 43-65). -/
structure K8sDeployment where
  name : String
  dns_name : String
  head_port_in : Int
  version : String
  pea_type : String
  jina_pod_name : String
  shard_id : Option Int
  common_args : Args
  deployment_args : Args
  num_replicas : Int
  cluster_address : Option String
  deriving DecidableEq, Repr

/-- `_K8sDeployment.__init__` (lines 44-65). -/
def mkK8sDeployment (name : String) (head_port_in : Int) (version : String)
    (pea_type : String) (jina_pod_name : String) (shard_id : Option Int)
    (common_args deployment_args : Args) : K8sDeployment :=
  { name := name, dns_name := to_dns_name name, head_port_in := head_port_in,
    version := version, pea_type := pea_type, jina_pod_name := jina_pod_name,
    shard_id := shard_id, common_args := common_args,
    deployment_args := deployment_args,
    num_replicas := deployment_args.replicas,
    cluster_address := none }

/-- The information content of the container-argument string built by
`_construct_runtime_container_args` (lines 97-110).  Serialization mechanics
(the exact flag-string shape produced via the k8slib helpers
`dictionary_to_cli_param` / `get_cli_params`, both outside src) are out of
scope per the spec, so the structured payload is kept instead of the string. -/
structure ContainerArgs where
  uses : String
  runtime_cls : String
  uses_metas_pea_id : Option Int
  uses_with : Option String
  deployment_args : Args
  port_in : Option Int
  deriving DecidableEq, Repr

/-- `_construct_runtime_container_args` (lines 97-110). -/
def _construct_runtime_container_args (deployment_args : Args) (uses : String)
    (uses_metas_pea_id : Option Int) (uses_with : Option String)
    (pea_type : String) (port_in : Option Int) : ContainerArgs :=
  { uses := uses,
    runtime_cls := if pea_type.toLower == "worker" then "WorkerRuntime"
                   else "HeadRuntime",
    uses_metas_pea_id := uses_metas_pea_id,
    uses_with := uses_with,
    deployment_args := deployment_args,
    port_in := port_in }

/-- `_K8sDeployment._get_container_args` (lines 129-146). -/
def _get_container_args (d : K8sDeployment) (uses : String)
    (pea_type : Option String) (port_in : Option Int) : ContainerArgs :=
  let uses_metas := d.shard_id
  let uses_with := d.deployment_args.uses_with
  let uses_with_opt := if truthy uses_with then uses_with else none
  let uses1 := if uses != default_executor then "config.yml" else uses
  _construct_runtime_container_args d.deployment_args uses1 uses_metas
    uses_with_opt (pea_type.getD d.pea_type) port_in

/-- Modelled from the spec: `kubernetes_deployment.get_image_name` (k8slib not
in src) maps a processing-unit reference to its container image reference;
kept as the identity since no claim depends on its internals. -/
def get_image_name (uses : String) : String := uses

/-- `_K8sDeployment._get_image_name` (lines 112-124); `testPip` is the
environment flag `JINA_K8S_USE_TEST_PIP`. -/
def _get_image_name (d : K8sDeployment) (testPip : Bool) (uses : String) : String :=
  let image_name := get_image_name uses
  if image_name == default_executor then
    if testPip then "jinaai/jina:test-pip"
    else "jinaai/jina:" ++ d.version ++ "-py38-perf"
  else image_name

/-- The payload `get_runtime_yamls` (lines 148-210) hands to the external
collaborator `kubernetes_deployment.get_deployment_yamls` (k8slib, outside
src): one field per keyword argument of that call, with serialized argument
strings kept structured (see `ContainerArgs`). -/
structure RuntimeYamls where
  name : String
  k8s_namespace : String
  image_name : String
  image_name_uses_before : Option String
  image_name_uses_after : Option String
  container_cmd : String
  container_args : ContainerArgs
  container_args_uses_before : Option ContainerArgs
  container_args_uses_after : Option ContainerArgs
  replicas : Int
  pull_policy : String
  jina_pod_name : String
  pea_type : String
  shard_id : Option Int
  init_container_common_args : Args
  env : Option String
  gpus : Option String
  custom_resource_dir : Option String
  deriving DecidableEq, Repr

/-- `_K8sDeployment.get_runtime_yamls` (lines 148-210). -/
def get_runtime_yamls (d : K8sDeployment) (k8s_ns : String) (testPip : Bool) :
    RuntimeYamls :=
  let image_name := _get_image_name d testPip d.deployment_args.uses
  let image_name_uses_before :=
    if truthy d.deployment_args.uses_before then
      some (_get_image_name d testPip (d.deployment_args.uses_before.getD ""))
    else none
  let image_name_uses_after :=
    if truthy d.deployment_args.uses_after then
      some (_get_image_name d testPip (d.deployment_args.uses_after.getD ""))
    else none
  let container_args := _get_container_args d d.deployment_args.uses none none
  let container_args_uses_before :=
    if truthy d.deployment_args.uses_before then
      some (_get_container_args d (d.deployment_args.uses_before.getD "")
        (some "worker") (some K8S_PORT_USES_BEFORE))
    else none
  let container_args_uses_after :=
    if truthy d.deployment_args.uses_after then
      some (_get_container_args d (d.deployment_args.uses_after.getD "")
        (some "worker") (some K8S_PORT_USES_AFTER))
    else none
  { name := d.dns_name, k8s_namespace := k8s_ns, image_name := image_name,
    image_name_uses_before := image_name_uses_before,
    image_name_uses_after := image_name_uses_after,
    container_cmd := "[\"jina\"]",
    container_args := container_args,
    container_args_uses_before := container_args_uses_before,
    container_args_uses_after := container_args_uses_after,
    replicas := d.num_replicas, pull_policy := "IfNotPresent",
    jina_pod_name := d.jina_pod_name, pea_type := d.pea_type,
    shard_id := d.shard_id,
    init_container_common_args := d.common_args,
    env := d.deployment_args.env,
    gpus := d.deployment_args.gpus,
    custom_resource_dir := d.common_args.k8s_custom_resource_dir }

/-- The payload `get_gateway_yamls` (lines 67-95) hands to
`kubernetes_deployment.get_deployment_yamls`; `container_args_common` is the
copy of `common_args` the gateway serializes (`pod_role` excluded via
`skip_list`). -/
structure GatewayYamls where
  name : String
  k8s_namespace : String
  image_name : String
  container_cmd : String
  container_args_common : Args
  skip_list : List String
  replicas : Int
  pull_policy : String
  jina_pod_name : String
  pea_type : String
  port_expose : Int
  deriving DecidableEq, Repr

/-- `_K8sDeployment.get_gateway_yamls` (lines 67-95). -/
def get_gateway_yamls (d : K8sDeployment) (k8s_ns : String)
    (pod_addresses : Option (List String)) (testPip : Bool) : GatewayYamls :=
  let image_name := if testPip then "jinaai/jina:test-pip"
                    else "jinaai/jina:" ++ d.version ++ "-py38-standard"
  let cargs := d.common_args
  let cargs := if cargs.k8s_connection_pool then
      { cargs with pods_addresses := some [] }
    else { cargs with pods_addresses := pod_addresses }
  { name := d.dns_name, k8s_namespace := k8s_ns, image_name := image_name,
    container_cmd := "[\"jina\"]",
    container_args_common := cargs, skip_list := ["pod_role"],
    replicas := 1, pull_policy := "IfNotPresent", jina_pod_name := "gateway",
    pea_type := "gateway", port_expose := cargs.port_expose }

/-- One unit's manifest fragments: gateway-shaped or runtime-shaped. -/
inductive Yamls where
  | gateway : GatewayYamls → Yamls
  | runtime : RuntimeYamls → Yamls
  deriving DecidableEq, Repr

/-- The effect monad of one resolution pass: `Except PyError` plus a counter
of how many times the Docker-registry version lookup has been performed. -/
def CountM (α : Type) : Type := Nat → Except PyError (α × Nat)

/-- `pure` for `CountM`. -/
def CountM.pure (a : α) : CountM α := fun n => .ok (a, n)

/-- `bind` for `CountM`. -/
def CountM.bind (x : CountM α) (f : α → CountM β) : CountM β := fun n =>
  match x n with
  | .error e => .error e
  | .ok (a, m) => f a m

instance : Monad CountM where
  pure := CountM.pure
  bind := CountM.bind

/-- Lift an effect-free `Except` computation into `CountM`. -/
def liftE (e : Except PyError α) : CountM α := fun n =>
  match e with
  | .error err => .error err
  | .ok a => .ok (a, n)

/-- `_get_base_executor_version` (lines 12-22).  `jinaVersion` models the
running `jina.__version__`; `fetch` the outcome of
`requests.get(url).json()` — a tag-name list on success, or a raised request
error (the source has no try/except around the call).  Each evaluation is one
network lookup, hence the counter bump. -/
def _get_base_executor_version (jinaVersion : String)
    (fetch : Except Unit (List String)) : CountM String := fun n =>
  match fetch with
  | .error _ => .error .requestError
  | .ok tags => .ok ((if tags.contains jinaVersion then jinaVersion else "master"), n + 1)

/-- The `PodConfig` mixin's attributes (lines 25-32): `self.name` and
`self.args` are both supplied by the concrete pod class. -/
structure PodConfig where
  name : String
  args : Args
  deriving DecidableEq, Repr

/-- `PodConfig.k8s_namespace` (lines 305-310) — a plain method (its *value*;
the source's f-string on line 233 interpolates the bound method object
instead, see `boundMethodText`). -/
def PodConfig.k8s_namespace (self : PodConfig) : String :=
  self.args.k8s_namespace

/-- `PodConfig.head_deployment` (lines 264-280).  The source evaluates
`self._get_deployment_args(self.args)` twice (lines 269 and 278); both calls
are pure and identical, and the second is rebound here.  The inner `none`
branch is unreachable because the function is deterministic. -/
def head_deployment (self : PodConfig) (objRepr jinaVersion : String)
    (fetch : Except Unit (List String)) : CountM (Option K8sDeployment) := do
  let check ← liftE (_get_deployment_args self.name objRepr self.args)
  match check.head_deployment with
  | none => pure none
  | some _ =>
    let name := self.name ++ "-head"
    let version ← _get_base_executor_version jinaVersion fetch
    let pa ← liftE (_get_deployment_args self.name objRepr self.args)
    match pa.head_deployment with
    | some hd =>
      pure (some (mkK8sDeployment name K8S_PORT_IN version "head" self.name
        none self.args hd))
    | none => pure none

/-- The `for i, args in enumerate(deployment_args)` loop of
`worker_deployments` (lines 289-302), with `i` the running index and `total`
the pre-computed `len(deployment_args)` used in the name choice. -/
def worker_loop (selfName jinaVersion : String)
    (fetch : Except Unit (List String)) (common : Args) (total : Nat) :
    Nat → List Args → CountM (List K8sDeployment)
  | _, [] => pure []
  | i, args :: rest => do
    let name := if total > 1 then selfName ++ "-" ++ toString i else selfName
    let version ← _get_base_executor_version jinaVersion fetch
    let d := mkK8sDeployment name K8S_PORT_IN version "worker" selfName
      (some (Int.ofNat i)) common args
    let ds ← worker_loop selfName jinaVersion fetch common total (i + 1) rest
    pure (d :: ds)

/-- `PodConfig.worker_deployments` (lines 282-303). -/
def worker_deployments (self : PodConfig) (objRepr jinaVersion : String)
    (fetch : Except Unit (List String)) : CountM (List K8sDeployment) := do
  let pa ← liftE (_get_deployment_args self.name objRepr self.args)
  worker_loop self.name jinaVersion fetch self.args pa.deployments.length 0
    pa.deployments

/-- `PodConfig.to_k8s_yaml` (lines 312-335), the `resolve` entry point.
In the non-gateway branch the source builds `[self.head_deployment]` and then
reads `.name` of each element, so a hypothetical `None` head would raise an
AttributeError inside the comprehension; a missing first worker in the
gateway branch raises IndexError (line 324). -/
def to_k8s_yaml (self : PodConfig) (objRepr jinaVersion : String)
    (fetch : Except Unit (List String)) (testPip : Bool)
    (k8s_ns : String) (pod_addresses : Option (List String)) :
    CountM (List (String × Yamls)) := do
  if self.name == "gateway" then
    let ws ← worker_deployments self objRepr jinaVersion fetch
    match ws with
    | [] => liftE (.error .indexError)
    | w :: _ =>
      pure [("gateway", Yamls.gateway (get_gateway_yamls w k8s_ns pod_addresses testPip))]
  else
    let hd ← head_deployment self objRepr jinaVersion fetch
    let ws ← worker_deployments self objRepr jinaVersion fetch
    match hd with
    | none => liftE (.error (.attributeError "name"))
    | some h =>
      let deployments := h :: ws
      pure (deployments.map (fun d =>
        (d.name, Yamls.runtime (get_runtime_yamls d k8s_ns testPip))))

/-- The value `_get_base_executor_version` returns when the registry fetch
succeeds with tag list `tags` (lines 18-22). -/
def versionOf (jinaVersion : String) (tags : List String) : String :=
  if tags.contains jinaVersion then jinaVersion else "master"

/-- The head argument set `_get_deployment_args` derives for a non-gateway
spec (lines 222-250), written as one update chain. -/
def headArgsOf (selfName objRepr : String) (args : Args) : Args :=
  let h := { args with replicas := 1, runtime_cls := "HeadRuntime",
                       pea_role := PeaRoleType.HEAD, port_in := K8S_PORT_IN }
  let cl := connection_list_string selfName (boundMethodText objRepr) args.shards
  let h := if !args.k8s_connection_pool then
      { h with connection_list := some cl }
    else h
  let addrB := "127.0.0.1:" ++ toString K8S_PORT_USES_BEFORE
  let h := if truthy args.uses_before then
      { h with uses_before_address := some addrB }
    else h
  let addrA := "127.0.0.1:" ++ toString K8S_PORT_USES_AFTER
  if truthy args.uses_after then
    { h with uses_after_address := some addrA }
  else h

/-- The worker argument set for loop value `i` (lines 252-260). -/
def workerArgsOf (args : Args) (i : Int) : Args :=
  { args with shard_id := some i, uses_before := none, uses_after := none,
              port_in := K8S_PORT_IN,
              pea_role := if args.name == "gateway" then PeaRoleType.GATEWAY
                          else args.pea_role }

/-- The full worker argument list (lines 252-260). -/
def deploymentsOf (args : Args) : List Args :=
  (pyRange args.shards).map (workerArgsOf args)

/-- The worker unit name rule of line 290. -/
def workerNameOf (selfName : String) (total i : Nat) : String :=
  if total > 1 then selfName ++ "-" ++ toString i else selfName

/-- The descriptor list the worker loop builds when every version lookup
succeeds with tag list `tags` (pure image of `worker_loop`). -/
def worker_descrs (selfName jinaVersion : String) (tags : List String)
    (common : Args) (total : Nat) : Nat → List Args → List K8sDeployment
  | _, [] => []
  | i, args :: rest =>
    mkK8sDeployment (workerNameOf selfName total i) K8S_PORT_IN
        (versionOf jinaVersion tags) "worker" selfName (some (Int.ofNat i))
        common args
      :: worker_descrs selfName jinaVersion tags common total (i + 1) rest

/-- The head descriptor a successful pass builds for a non-gateway pod. -/
def expectedHeadDescr (cfg : PodConfig) (objRepr jinaVersion : String)
    (tags : List String) : K8sDeployment :=
  mkK8sDeployment (cfg.name ++ "-head") K8S_PORT_IN (versionOf jinaVersion tags)
    "head" cfg.name none cfg.args (headArgsOf cfg.name objRepr cfg.args)

/-- The worker descriptor for shard `i` a successful pass builds for a
non-gateway pod. -/
def expectedWorkerDescr (cfg : PodConfig) (jinaVersion : String)
    (tags : List String) (i : Nat) : K8sDeployment :=
  mkK8sDeployment (workerNameOf cfg.name cfg.args.shards.toNat i) K8S_PORT_IN
    (versionOf jinaVersion tags) "worker" cfg.name (some (Int.ofNat i))
    cfg.args (workerArgsOf cfg.args (Int.ofNat i))

/-- The `(unit-name, fragments)` list a successful non-gateway pass returns. -/
def expectedUnits (cfg : PodConfig) (objRepr jinaVersion : String)
    (tags : List String) (testPip : Bool) (k8s_ns : String) :
    List (String × Yamls) :=
  (cfg.name ++ "-head",
    Yamls.runtime (get_runtime_yamls (expectedHeadDescr cfg objRepr jinaVersion tags)
      k8s_ns testPip)) ::
  (List.range cfg.args.shards.toNat).map (fun i =>
    (workerNameOf cfg.name cfg.args.shards.toNat i,
     Yamls.runtime (get_runtime_yamls (expectedWorkerDescr cfg jinaVersion tags i)
       k8s_ns testPip)))

/-- Modelled from the spec: `buildConnectionList(shardCount, podName,
namespace, headPort)` of the Address Resolver, following the spec's words
(keys `"0" .. shardCount-1` in ascending order, each mapping to
`"<name>.<namespace>.svc:<port>"`, the sole shard unsuffixed); formatting
follows the source's separator so that the only difference under scrutiny is
the namespace text. -/
def buildConnectionList (shardCount : Nat) (podName ns : String)
    (headPort : Int) : String :=
  let entries := (List.range shardCount).map (fun i =>
    let nm := if shardCount == 1 then podName else podName ++ "-" ++ toString i
    "\"" ++ toString i ++ "\": \"" ++ nm ++ "." ++ ns ++ ".svc:"
      ++ toString headPort ++ "\"")
  "\x7b" ++ String.intercalate "," entries ++ "\x7d"

/-- Project a finished pass onto its lookup counter. -/
def lookupCountOf (r : Except PyError (α × Nat)) : Option Nat :=
  match r with
  | .ok (_, n) => some n
  | .error _ => none

/-- State-threading variant of `_get_deployment_args` (lines 212-262) that
makes the caller's spec object explicit: the second component of the result
is the binding standing for the caller's `args` object after the call.  Every
assignment in the source targets `parsed_args['head_deployment']` (a
`copy.copy` of `args`, lines 222-250) or `cargs` (a `copy.deepcopy`, lines
253-257); none targets `args`, so the caller binding is returned as it came
in. -/
def _get_deployment_args_st (selfName objRepr : String) (caller : Args) :
    Except PyError (ParsedArgs × Args) :=
  let shards := caller.shards
  let head0 : Option Args :=
    if caller.name != "gateway" then
      let h := caller
      let h := { h with replicas := 1, runtime_cls := "HeadRuntime",
                        pea_role := PeaRoleType.HEAD, port_in := K8S_PORT_IN }
      if !caller.k8s_connection_pool then
        let cl := connection_list_string selfName (boundMethodText objRepr) shards
        some { h with connection_list := some cl }
      else some h
    else none
  let step1 : Except PyError (Option Args) :=
    if truthy caller.uses_before then
      match head0 with
      | none => .error (.attributeError "uses_before_address")
      | some h =>
        let addr := "127.0.0.1:" ++ toString K8S_PORT_USES_BEFORE
        .ok (some { h with uses_before_address := some addr })
    else .ok head0
  match step1 with
  | .error e => .error e
  | .ok head1 =>
    let step2 : Except PyError (Option Args) :=
      if truthy caller.uses_after then
        match head1 with
        | none => .error (.attributeError "uses_after_address")
        | some h =>
          let addr := "127.0.0.1:" ++ toString K8S_PORT_USES_AFTER
          .ok (some { h with uses_after_address := some addr })
      else .ok head1
    match step2 with
    | .error e => .error e
    | .ok head2 =>
      let deployments := (pyRange shards).map (fun i =>
        { caller with shard_id := some i, uses_before := none,
                      uses_after := none, port_in := K8S_PORT_IN,
                      pea_role := if caller.name == "gateway" then PeaRoleType.GATEWAY
                                  else caller.pea_role })
      .ok ({ head_deployment := head2, deployments := deployments }, caller)

/-- State-threading variant of `get_gateway_yamls` (lines 67-95): the second
component is the caller's `common_args` object after the call.  The single
assignment (`cargs.pods_addresses`, lines 79-82) targets the `copy.copy`
binding `cargs`, not `common_args`. -/
def get_gateway_yamls_st (d : K8sDeployment) (k8s_ns : String)
    (pod_addresses : Option (List String)) (testPip : Bool) :
    GatewayYamls × Args :=
  let image_name := if testPip then "jinaai/jina:test-pip"
                    else "jinaai/jina:" ++ d.version ++ "-py38-standard"
  let cargs := d.common_args
  let cargs := if cargs.k8s_connection_pool then
      { cargs with pods_addresses := some [] }
    else { cargs with pods_addresses := pod_addresses }
  ({ name := d.dns_name, k8s_namespace := k8s_ns, image_name := image_name,
     container_cmd := "[\"jina\"]",
     container_args_common := cargs, skip_list := ["pod_role"],
     replicas := 1, pull_policy := "IfNotPresent", jina_pod_name := "gateway",
     pea_type := "gateway", port_expose := cargs.port_expose },
   d.common_args)

/-- State-threading variant of a full `to_k8s_yaml` pass (lines 312-335),
with the version lookup stubbed to its success value `versionOf` (mutation is
independent of the lookup outcome): threads the binding for the caller's
`self.args` object through argument expansion (both property accesses) and
manifest rendering of every unit, and returns it alongside the unit list.
Rendering (`get_runtime_yamls`) only reads its inputs. -/
def to_k8s_yaml_st (cfg : PodConfig) (objRepr jinaVersion : String)
    (tags : List String) (testPip : Bool) (k8s_ns : String)
    (pod_addresses : Option (List String)) :
    Except PyError (List (String × Yamls) × Args) :=
  if cfg.name == "gateway" then
    match _get_deployment_args_st cfg.name objRepr cfg.args with
    | .error e => .error e
    | .ok (pa, args1) =>
      match worker_descrs cfg.name jinaVersion tags args1 pa.deployments.length 0
          pa.deployments with
      | [] => .error .indexError
      | w :: _ =>
        let (y, args2) := get_gateway_yamls_st w k8s_ns pod_addresses testPip
        .ok ([("gateway", Yamls.gateway y)], args2)
  else
    match _get_deployment_args_st cfg.name objRepr cfg.args with
    | .error e => .error e
    | .ok (pa, args1) =>
      match pa.head_deployment with
      | none => .error (.attributeError "name")
      | some hd =>
        let hdep := mkK8sDeployment (cfg.name ++ "-head") K8S_PORT_IN
          (versionOf jinaVersion tags) "head" cfg.name none args1 hd
        match _get_deployment_args_st cfg.name objRepr args1 with
        | .error e => .error e
        | .ok (pa2, args2) =>
          let ws := worker_descrs cfg.name jinaVersion tags args2
            pa2.deployments.length 0 pa2.deployments
          .ok ((hdep :: ws).map (fun d =>
            (d.name, Yamls.runtime (get_runtime_yamls d k8s_ns testPip))), args2)

/-- A plain non-gateway sample spec: two shards, pooling enabled. -/
def sampleArgs : Args :=
  { name := "enc", shards := 2, replicas := 1, uses := "my-exec",
    uses_before := none, uses_after := none, uses_with := none,
    k8s_connection_pool := true, k8s_namespace := "ns", port_in := 0,
    port_expose := 8080, pea_role := PeaRoleType.SINGLETON,
    runtime_cls := "ZEDRuntime", shard_id := none, connection_list := none,
    uses_before_address := none, uses_after_address := none, env := none,
    gpus := none, k8s_custom_resource_dir := none, pods_addresses := none }

/-- The pod object holding `sampleArgs`. -/
def sampleCfg : PodConfig := { name := "enc", args := sampleArgs }

/-- `sampleArgs` with pooling disabled and a single shard. -/
def poolOffArgs : Args := { sampleArgs with shards := 1, k8s_connection_pool := false }

/-- The pod object holding `poolOffArgs`. -/
def poolOffCfg : PodConfig := { name := "enc", args := poolOffArgs }

/-- `sampleArgs` with zero shards. -/
def zeroShardArgs : Args := { sampleArgs with shards := 0 }

/-- The pod object holding `zeroShardArgs`. -/
def zeroShardCfg : PodConfig := { name := "enc", args := zeroShardArgs }

/-- `sampleArgs` with zero replicas. -/
def zeroReplicaArgs : Args := { sampleArgs with replicas := 0 }

/-- The pod object holding `zeroReplicaArgs`. -/
def zeroReplicaCfg : PodConfig := { name := "enc", args := zeroReplicaArgs }

/-- A three-shard sample spec. -/
def threeShardArgs : Args := { sampleArgs with shards := 3 }

/-- The pod object holding `threeShardArgs`. -/
def threeShardCfg : PodConfig := { name := "enc", args := threeShardArgs }

/-- A gateway spec with a pre-filter unit configured. -/
def gatewayBeforeArgs : Args :=
  { sampleArgs with name := "gateway", shards := 1, uses_before := some "pre-filter" }

/-- A gateway spec with only a post-filter unit configured. -/
def gatewayAfterArgs : Args :=
  { sampleArgs with name := "gateway", shards := 1, uses_after := some "post-filter" }

theorem countM_bind_def (x : CountM α) (f : α → CountM β) :
    x >>= f = CountM.bind x f := rfl

theorem countM_pure_def (a : α) : (pure a : CountM α) = CountM.pure a := rfl

theorem gbev_ok (jv : String) (tags : List String) (n : Nat) :
    _get_base_executor_version jv (.ok tags) n = .ok (versionOf jv tags, n + 1) := rfl

/-- On a non-gateway spec, argument expansion succeeds and yields the head
update chain `headArgsOf` plus one worker argument set per shard. -/
theorem gda_nonGateway (selfName objRepr : String) (args : Args)
    (h : args.name ≠ "gateway") :
    _get_deployment_args selfName objRepr args =
      .ok { head_deployment := some (headArgsOf selfName objRepr args),
            deployments := deploymentsOf args } := by
  have hb : (args.name != "gateway") = true := bne_iff_ne.mpr h
  by_cases hp : args.k8s_connection_pool = true <;>
  by_cases hcb : truthy args.uses_before = true <;>
  by_cases hca : truthy args.uses_after = true <;>
  simp [_get_deployment_args, headArgsOf, deploymentsOf, workerArgsOf, hb, hp,
    hcb, hca]

/-- `head_deployment` on a non-gateway spec with a successful fetch: one
lookup, returning the expected head descriptor. -/
theorem head_deployment_apply (cfg : PodConfig) (objRepr jv : String)
    (tags : List String) (hn : cfg.args.name ≠ "gateway") (n : Nat) :
    head_deployment cfg objRepr jv (.ok tags) n =
      .ok (some (expectedHeadDescr cfg objRepr jv tags), n + 1) := by
  simp [head_deployment, countM_bind_def, countM_pure_def, CountM.bind,
    CountM.pure, liftE, gda_nonGateway _ _ _ hn, gbev_ok, expectedHeadDescr]

/-- The worker loop under a successful fetch: one lookup per element,
returning `worker_descrs`. -/
theorem worker_loop_apply (selfName jv : String) (tags : List String)
    (common : Args) (total : Nat) :
    ∀ (xs : List Args) (i n : Nat),
      worker_loop selfName jv (.ok tags) common total i xs n =
        .ok (worker_descrs selfName jv tags common total i xs, n + xs.length) := by
  intro xs
  induction xs with
  | nil => intro i n; rfl
  | cons a rest ih =>
    intro i n
    simp [worker_loop, worker_descrs, countM_bind_def, countM_pure_def,
      CountM.bind, CountM.pure, gbev_ok, workerNameOf, ih (i + 1) (n + 1)]
    omega

/-- `worker_deployments` on a non-gateway spec with a successful fetch. -/
theorem worker_deployments_apply (cfg : PodConfig) (objRepr jv : String)
    (tags : List String) (hn : cfg.args.name ≠ "gateway") (n : Nat) :
    worker_deployments cfg objRepr jv (.ok tags) n =
      .ok (worker_descrs cfg.name jv tags cfg.args (deploymentsOf cfg.args).length 0
            (deploymentsOf cfg.args),
           n + (deploymentsOf cfg.args).length) := by
  simp [worker_deployments, countM_bind_def, CountM.bind, liftE,
    gda_nonGateway _ _ _ hn, worker_loop_apply]

/-- `worker_descrs` over a mapped index range, walked from the same start. -/
theorem worker_descrs_range (selfName jv : String) (tags : List String)
    (common : Args) (total : Nat) (g : Nat → Args) :
    ∀ (m s : Nat),
      worker_descrs selfName jv tags common total s ((List.range' s m).map g) =
        (List.range' s m).map (fun k =>
          mkK8sDeployment (workerNameOf selfName total k) K8S_PORT_IN
            (versionOf jv tags) "worker" selfName (some (Int.ofNat k)) common
            (g k)) := by
  intro m
  induction m with
  | zero => intro s; rfl
  | succ m ih =>
    intro s
    rw [List.range'_succ]
    simp [worker_descrs, ih (s + 1)]

/-- The worker-descriptor list of a pass is the range-indexed image of
`expectedWorkerDescr`. -/
theorem worker_descrs_deploymentsOf (cfg : PodConfig) (jv : String)
    (tags : List String) :
    worker_descrs cfg.name jv tags cfg.args cfg.args.shards.toNat 0
        (deploymentsOf cfg.args) =
      (List.range cfg.args.shards.toNat).map (expectedWorkerDescr cfg jv tags) := by
  have hset : deploymentsOf cfg.args =
      (List.range' 0 cfg.args.shards.toNat).map
        (fun k => workerArgsOf cfg.args (Int.ofNat k)) := by
    simp only [deploymentsOf, pyRange, List.map_map, List.range_eq_range']
    rfl
  rw [hset, worker_descrs_range, ← List.range_eq_range']
  simp [expectedWorkerDescr]

/-- A full non-gateway pass with a successful fetch returns `expectedUnits`
and performs `1 + shard_count.toNat` version lookups. -/
theorem to_k8s_yaml_nonGateway (cfg : PodConfig) (objRepr jv : String)
    (tags : List String) (tp : Bool) (ns : String) (pas : Option (List String))
    (hn : cfg.name ≠ "gateway") (ha : cfg.args.name = cfg.name) :
    to_k8s_yaml cfg objRepr jv (.ok tags) tp ns pas 0 =
      .ok (expectedUnits cfg objRepr jv tags tp ns, 1 + cfg.args.shards.toNat) := by
  have hn2 : cfg.args.name ≠ "gateway" := by rw [ha]; exact hn
  have hb : (cfg.name == "gateway") = false := beq_eq_false_iff_ne.mpr hn
  have hlen : (deploymentsOf cfg.args).length = cfg.args.shards.toNat := by
    simp only [deploymentsOf, pyRange, List.length_map, List.length_range]
  simp only [to_k8s_yaml, hb, Bool.false_eq_true, if_false, countM_bind_def,
    CountM.bind, head_deployment_apply cfg objRepr jv tags hn2,
    worker_deployments_apply cfg objRepr jv tags hn2,
    countM_pure_def, CountM.pure, hlen, worker_descrs_deploymentsOf,
    expectedUnits, List.map_cons, List.map_map]
  simp [expectedHeadDescr, expectedWorkerDescr, mkK8sDeployment, Nat.zero_add]

/-- Claim C1: for every PodSpec with name different from "gateway" and
shard_count at least 1, `to_k8s_yaml` (the resolve entry point) returns
exactly `1 + shard_count` (unit-name, fragments) pairs, in the fixed order:
the head deployment first, then the worker deployments for shard indices
0 .. shard_count-1 in ascending order (the pair at position `1 + i` carries
shard id `i`). -/
theorem C1_unit_count_and_order (cfg : PodConfig) (objRepr jv : String)
    (tags : List String) (tp : Bool) (ns : String) (pas : Option (List String))
    (hn : cfg.name ≠ "gateway") (ha : cfg.args.name = cfg.name)
    (hs : 1 ≤ cfg.args.shards) :
    ∃ units cnt,
      to_k8s_yaml cfg objRepr jv (.ok tags) tp ns pas 0 = .ok (units, cnt) ∧
      units.length = 1 + cfg.args.shards.toNat ∧
      units.map Prod.fst =
        (cfg.name ++ "-head") ::
          (List.range cfg.args.shards.toNat).map
            (fun i => workerNameOf cfg.name cfg.args.shards.toNat i) ∧
      ∀ i, i < cfg.args.shards.toNat →
        ∃ ry, units[i + 1]? =
            some (workerNameOf cfg.name cfg.args.shards.toNat i, Yamls.runtime ry) ∧
          ry.shard_id = some (Int.ofNat i) := by
  refine ⟨expectedUnits cfg objRepr jv tags tp ns, 1 + cfg.args.shards.toNat,
    to_k8s_yaml_nonGateway cfg objRepr jv tags tp ns pas hn ha, ?_, ?_, ?_⟩
  · simp [expectedUnits]
    omega
  · simp [expectedUnits, List.map_map, expectedHeadDescr, expectedWorkerDescr,
      mkK8sDeployment]
  · intro i hi
    refine ⟨get_runtime_yamls (expectedWorkerDescr cfg jv tags i) ns tp, ?_, ?_⟩
    · simp [expectedUnits, List.getElem?_map, List.getElem?_range, hi]
    · rfl

/-- Witness for C1 at a concrete two-shard spec. -/
theorem C1_unit_count_and_order_witness :
    ∃ units cnt,
      to_k8s_yaml sampleCfg "OBJ" "2.0.0" (.ok ["2.0.0"]) false "ns" none 0 =
        .ok (units, cnt) ∧
      units.length = 1 + sampleCfg.args.shards.toNat ∧
      units.map Prod.fst =
        (sampleCfg.name ++ "-head") ::
          (List.range sampleCfg.args.shards.toNat).map
            (fun i => workerNameOf sampleCfg.name sampleCfg.args.shards.toNat i) ∧
      ∀ i, i < sampleCfg.args.shards.toNat →
        ∃ ry, units[i + 1]? =
            some (workerNameOf sampleCfg.name sampleCfg.args.shards.toNat i,
              Yamls.runtime ry) ∧
          ry.shard_id = some (Int.ofNat i) :=
  C1_unit_count_and_order sampleCfg "OBJ" "2.0.0" ["2.0.0"] false "ns" none
    (by decide) rfl (by decide)

/-- Claim C9: unit naming — the head unit is "<pod-name>-head"; with
shard_count = 1 the sole worker unit is named exactly the Pod name (no shard
suffix); with shard_count > 1 worker `i` is named "<pod-name>-<i>". -/
theorem C9_unit_names (cfg : PodConfig) (objRepr jv : String)
    (tags : List String) (tp : Bool) (ns : String) (pas : Option (List String))
    (hn : cfg.name ≠ "gateway") (ha : cfg.args.name = cfg.name) :
    ∃ units cnt,
      to_k8s_yaml cfg objRepr jv (.ok tags) tp ns pas 0 = .ok (units, cnt) ∧
      units.map Prod.fst =
        (cfg.name ++ "-head") ::
          (if cfg.args.shards = 1 then [cfg.name]
           else (List.range cfg.args.shards.toNat).map
             (fun i => cfg.name ++ "-" ++ toString i)) := by
  refine ⟨expectedUnits cfg objRepr jv tags tp ns, 1 + cfg.args.shards.toNat,
    to_k8s_yaml_nonGateway cfg objRepr jv tags tp ns pas hn ha, ?_⟩
  simp only [expectedUnits, List.map_cons, List.map_map, expectedHeadDescr,
    expectedWorkerDescr, mkK8sDeployment]
  by_cases h1 : cfg.args.shards = 1
  · have hr : List.range 1 = [0] := rfl
    simp [h1, workerNameOf, hr]
  · have : ¬ cfg.args.shards.toNat > 1 → cfg.args.shards.toNat = 0 ∨
        cfg.args.shards.toNat = 1 := by omega
    by_cases h2 : cfg.args.shards.toNat > 1
    · simp [h1, workerNameOf, h2]
    · rcases this h2 with h0 | hone
      · simp [h1, workerNameOf, h0]
      · exfalso
        have : cfg.args.shards = 1 := by omega
        exact h1 this

/-- Witness for C9 at a concrete two-shard spec. -/
theorem C9_unit_names_witness :
    ∃ units cnt,
      to_k8s_yaml sampleCfg "OBJ" "2.0.0" (.ok ["2.0.0"]) false "ns" none 0 =
        .ok (units, cnt) ∧
      units.map Prod.fst =
        (sampleCfg.name ++ "-head") ::
          (if sampleCfg.args.shards = 1 then [sampleCfg.name]
           else (List.range sampleCfg.args.shards.toNat).map
             (fun i => sampleCfg.name ++ "-" ++ toString i)) :=
  C9_unit_names sampleCfg "OBJ" "2.0.0" ["2.0.0"] false "ns" none
    (by decide) rfl

/-- Claim C7: for a non-gateway spec, the i-th worker argument set is a copy
of the spec in which shard_id is `i`, uses_before and uses_after are both
None, and port_in is the head ingress port; every other field is the spec's
own (each entry is an independent deep copy, modelled by value semantics). -/
theorem C7_worker_argument_sets (selfName objRepr : String) (args : Args)
    (hn : args.name ≠ "gateway") :
    ∃ pa, _get_deployment_args selfName objRepr args = .ok pa ∧
      pa.deployments.length = args.shards.toNat ∧
      ∀ i, i < args.shards.toNat →
        pa.deployments[i]? =
          some { args with shard_id := some (Int.ofNat i), uses_before := none, uses_after := none, port_in := K8S_PORT_IN } := by
  refine ⟨_, gda_nonGateway selfName objRepr args hn, ?_, ?_⟩
  · simp only [deploymentsOf, pyRange, List.length_map, List.length_range]
  · intro i hi
    have hb : (args.name == "gateway") = false := beq_eq_false_iff_ne.mpr hn
    simp [deploymentsOf, pyRange, workerArgsOf, List.getElem?_map,
      List.getElem?_range, hi, hb]

/-- Witness for C7 at a concrete two-shard spec. -/
theorem C7_worker_argument_sets_witness :
    ∃ pa, _get_deployment_args "enc" "OBJ" sampleArgs = .ok pa ∧
      pa.deployments.length = sampleArgs.shards.toNat ∧
      ∀ i, i < sampleArgs.shards.toNat →
        pa.deployments[i]? =
          some { sampleArgs with shard_id := some (Int.ofNat i), uses_before := none, uses_after := none, port_in := K8S_PORT_IN } :=
  C7_worker_argument_sets "enc" "OBJ" sampleArgs (by decide)

/-- Claim C10: for a PodSpec named "gateway" whose uses_before (or, failing
that, uses_after) is set, argument expansion does not return the single
gateway unit: it fails with an AttributeError, because the filter-address
assignment is applied to the head entry, which is None for a gateway Pod. -/
theorem C10_gateway_filter_attribute_error (selfName objRepr : String)
    (args : Args) (hgw : args.name = "gateway") :
    (truthy args.uses_before = true →
      _get_deployment_args selfName objRepr args =
        .error (.attributeError "uses_before_address")) ∧
    (truthy args.uses_before = false → truthy args.uses_after = true →
      _get_deployment_args selfName objRepr args =
        .error (.attributeError "uses_after_address")) := by
  have hb : (args.name != "gateway") = false := by simp [hgw]
  constructor
  · intro hub
    simp [_get_deployment_args, hb, hub]
  · intro hub hua
    simp [_get_deployment_args, hb, hub, hua]

/-- Witness for C10 at concrete gateway specs with a pre-filter (first
conjunct) and with only a post-filter (second conjunct). -/
theorem C10_gateway_filter_attribute_error_witness :
    _get_deployment_args "gateway" "OBJ" gatewayBeforeArgs =
        .error (.attributeError "uses_before_address") ∧
    _get_deployment_args "gateway" "OBJ" gatewayAfterArgs =
        .error (.attributeError "uses_after_address") :=
  ⟨(C10_gateway_filter_attribute_error "gateway" "OBJ" gatewayBeforeArgs
      rfl).1 (by decide),
   (C10_gateway_filter_attribute_error "gateway" "OBJ" gatewayAfterArgs
      rfl).2 (by decide) (by decide)⟩

/-- The state-threaded expander agrees with `_get_deployment_args` and hands
back the caller's spec object unchanged: every assignment inside it targets a
copy. -/
theorem gda_st_eq (selfName objRepr : String) (caller : Args) :
    _get_deployment_args_st selfName objRepr caller =
      (_get_deployment_args selfName objRepr caller).map (fun pa => (pa, caller)) := by
  by_cases hg : (caller.name != "gateway") = true <;>
  by_cases hp : caller.k8s_connection_pool = true <;>
  by_cases hcb : truthy caller.uses_before = true <;>
  by_cases hca : truthy caller.uses_after = true <;>
  simp [_get_deployment_args_st, _get_deployment_args, Except.map, hg, hp, hcb,
    hca]

/-- Claim C8: a full resolve pass (argument expansion for head and workers
plus manifest rendering for every unit, gateway or not) never mutates the
caller's input spec: the binding standing for the caller's `args` object
comes back equal to the input; all per-unit derived fields are written only
to copies. -/
theorem C8_input_spec_not_mutated (cfg : PodConfig) (objRepr jv : String)
    (tags : List String) (tp : Bool) (ns : String) (pas : Option (List String)) :
    (to_k8s_yaml_st cfg objRepr jv tags tp ns pas).map Prod.snd =
      (to_k8s_yaml_st cfg objRepr jv tags tp ns pas).map (fun _ => cfg.args) := by
  unfold to_k8s_yaml_st
  simp only [gda_st_eq]
  cases hgda : _get_deployment_args cfg.name objRepr cfg.args with
  | error e => by_cases hg : (cfg.name == "gateway") = true <;> simp [hg, Except.map]
  | ok pa =>
    by_cases hg : (cfg.name == "gateway") = true
    · simp only [hg, if_true, Except.map]
      cases hd : pa.deployments with
      | nil => simp [worker_descrs]
      | cons w rest => simp [worker_descrs, get_gateway_yamls_st, mkK8sDeployment]
    · simp only [hg, if_false, Except.map, hgda]
      cases hh : pa.head_deployment with
      | none => simp
      | some hd => simp [hgda]

/-- Counterexample to claim C2 as stated: on a non-gateway spec with
shard_count = 0, resolve raises nothing at all — it returns a (partial,
head-only) single-entry unit list, contradicting both the "raises a
ConfigurationError" part and the "no unit entries are returned" part. -/
theorem C2_counterexample :
    (to_k8s_yaml zeroShardCfg "OBJ" "2.0.0" (.ok []) false "ns" none 0).map
        (fun p => (p.1.map Prod.fst, p.1.length)) =
      .ok (["enc-head"], 1) := by rfl

/-- Claim C2 as amended: the code performs no shard/replica validation.
For a non-gateway spec with shard_count ≤ 0, resolve succeeds and returns
exactly one (head-only) entry; with replica_count = 0 it succeeds as well,
and every worker fragment carries replica count 0. -/
theorem C2_no_count_validation :
    (∀ (cfg : PodConfig) (objRepr jv : String) (tags : List String) (tp : Bool)
        (ns : String) (pas : Option (List String)),
      cfg.name ≠ "gateway" → cfg.args.name = cfg.name → cfg.args.shards ≤ 0 →
      ∃ hy cnt, to_k8s_yaml cfg objRepr jv (.ok tags) tp ns pas 0 =
        .ok ([(cfg.name ++ "-head", Yamls.runtime hy)], cnt)) ∧
    (∀ (cfg : PodConfig) (objRepr jv : String) (tags : List String) (tp : Bool)
        (ns : String) (pas : Option (List String)),
      cfg.name ≠ "gateway" → cfg.args.name = cfg.name → cfg.args.replicas = 0 →
      ∃ units cnt, to_k8s_yaml cfg objRepr jv (.ok tags) tp ns pas 0 =
          .ok (units, cnt) ∧
        ∀ p ∈ units.tail, ∃ ry, p.2 = Yamls.runtime ry ∧ ry.replicas = 0) := by
  constructor
  · intro cfg objRepr jv tags tp ns pas hn ha hsh
    have hz : cfg.args.shards.toNat = 0 := Int.toNat_of_nonpos hsh
    refine ⟨get_runtime_yamls (expectedHeadDescr cfg objRepr jv tags) ns tp,
      1 + cfg.args.shards.toNat, ?_⟩
    rw [to_k8s_yaml_nonGateway cfg objRepr jv tags tp ns pas hn ha]
    simp [expectedUnits, hz]
  · intro cfg objRepr jv tags tp ns pas hn ha hrep
    refine ⟨expectedUnits cfg objRepr jv tags tp ns, 1 + cfg.args.shards.toNat,
      to_k8s_yaml_nonGateway cfg objRepr jv tags tp ns pas hn ha, ?_⟩
    intro p hp
    simp only [expectedUnits, List.tail_cons, List.mem_map, List.mem_range] at hp
    obtain ⟨i, hi, hpi⟩ := hp
    refine ⟨get_runtime_yamls (expectedWorkerDescr cfg jv tags i) ns tp, ?_, ?_⟩
    · rw [← hpi]
    · show (expectedWorkerDescr cfg jv tags i).num_replicas = 0
      show (workerArgsOf cfg.args (Int.ofNat i)).replicas = 0
      rw [show (workerArgsOf cfg.args (Int.ofNat i)).replicas = cfg.args.replicas from rfl]
      exact hrep

/-- Witness for the amended C2, at a zero-shard spec (first conjunct) and a
zero-replica spec (second conjunct). -/
theorem C2_no_count_validation_witness :
    (∃ hy cnt, to_k8s_yaml zeroShardCfg "OBJ" "2.0.0" (.ok []) false "ns" none 0 =
      .ok ([(zeroShardCfg.name ++ "-head", Yamls.runtime hy)], cnt)) ∧
    (∃ units cnt, to_k8s_yaml zeroReplicaCfg "OBJ" "2.0.0" (.ok []) false "ns" none 0 =
        .ok (units, cnt) ∧
      ∀ p ∈ units.tail, ∃ ry, p.2 = Yamls.runtime ry ∧ ry.replicas = 0) :=
  ⟨C2_no_count_validation.1 zeroShardCfg "OBJ" "2.0.0" [] false "ns" none
    (by decide) rfl (by decide),
   C2_no_count_validation.2 zeroReplicaCfg "OBJ" "2.0.0" [] false "ns" none
    (by decide) rfl (by decide)⟩

/-- Counterexample to claim C4 as stated: when the registry request fails,
the lookup does not return "master" — it raises, and the exception surfaces
to the caller of resolve (no unit list with a fallback tag is produced). -/
theorem C4_counterexample :
    _get_base_executor_version "2.0.0" (.error ()) 0 = .error .requestError ∧
    to_k8s_yaml sampleCfg "OBJ" "2.0.0" (.error ()) false "ns" none 0 =
      .error .requestError :=
  ⟨rfl, rfl⟩

/-- Claim C4 as amended: the "master" fallback is only taken when the
request succeeds but the running version is not among the fetched tags; a
failed request propagates out of resolve as an error (no unit list). -/
theorem C4_version_fallback_and_propagation :
    (∀ (jv : String) (tags : List String) (n : Nat),
      tags.contains jv = false →
      _get_base_executor_version jv (.ok tags) n = .ok ("master", n + 1)) ∧
    (∀ (cfg : PodConfig) (objRepr jv : String) (tp : Bool) (ns : String)
        (pas : Option (List String)),
      cfg.name ≠ "gateway" → cfg.args.name = cfg.name →
      to_k8s_yaml cfg objRepr jv (.error ()) tp ns pas 0 =
        .error .requestError) := by
  constructor
  · intro jv tags n h
    simp only [_get_base_executor_version, h, Bool.false_eq_true, if_false]
  · intro cfg objRepr jv tp ns pas hn ha
    have hn2 : cfg.args.name ≠ "gateway" := by rw [ha]; exact hn
    have hb : (cfg.name == "gateway") = false := beq_eq_false_iff_ne.mpr hn
    have hhd : ∀ n, head_deployment cfg objRepr jv (.error ()) n =
        .error .requestError := by
      intro n
      simp [head_deployment, countM_bind_def, CountM.bind, liftE,
        gda_nonGateway _ _ _ hn2, _get_base_executor_version]
    simp [to_k8s_yaml, hb, countM_bind_def, CountM.bind, hhd]

/-- Witness for the amended C4: a missing tag falls back to "master", and a
failed request errors out of a concrete resolve call. -/
theorem C4_version_fallback_and_propagation_witness :
    _get_base_executor_version "2.0.0" (.ok ["1.0.0"]) 0 = .ok ("master", 1) ∧
    to_k8s_yaml sampleCfg "OBJ2" "2.0.0" (.error ()) false "ns" none 0 =
      .error .requestError :=
  ⟨C4_version_fallback_and_propagation.1 "2.0.0" ["1.0.0"] 0 (by decide),
   C4_version_fallback_and_propagation.2 sampleCfg "OBJ2" "2.0.0" false "ns"
     none (by decide) rfl⟩

/-- Counterexample to claim C5 as stated: resolving a three-shard pod
performs 4 version lookups (one per produced unit), not at most one. -/
theorem C5_counterexample :
    (to_k8s_yaml threeShardCfg "OBJ" "2.0.0" (.ok []) false "ns" none 0).map
        (fun p => (p.1.length, p.2)) = .ok (4, 4) := by rfl

/-- Claim C5 as amended: the version lookup is performed once per
constructed descriptor — `1 + shard_count` times for a non-gateway pod (head
plus one per worker), every lookup re-hitting the registry; the resulting
version strings only coincide because the stubbed remote state is fixed. -/
theorem C5_lookup_once_per_unit (cfg : PodConfig) (objRepr jv : String)
    (tags : List String) (tp : Bool) (ns : String) (pas : Option (List String))
    (hn : cfg.name ≠ "gateway") (ha : cfg.args.name = cfg.name) :
    (to_k8s_yaml cfg objRepr jv (.ok tags) tp ns pas 0).map Prod.snd =
      .ok (1 + cfg.args.shards.toNat) := by
  rw [to_k8s_yaml_nonGateway cfg objRepr jv tags tp ns pas hn ha]
  rfl

/-- Witness for the amended C5 at a concrete three-shard spec. -/
theorem C5_lookup_once_per_unit_witness :
    (to_k8s_yaml threeShardCfg "OBJ" "2.0.0" (.ok ["2.0.0"]) false "ns" none 0).map
        Prod.snd = .ok (1 + threeShardCfg.args.shards.toNat) :=
  C5_lookup_once_per_unit threeShardCfg "OBJ" "2.0.0" ["2.0.0"] false "ns" none
    (by decide) rfl

/-- Claim C3, found to be a code bug: with pooling disabled (one shard, pod
"enc", namespace "ns"), the head's connection_list embeds the str() of the
bound method `self.k8s_namespace` — not the namespace — because line 233
interpolates the method object without calling it (no `@property` on line
305).  The spec-intended `buildConnectionList` value differs. -/
theorem C3_connection_list_embeds_bound_method :
    (_get_deployment_args "enc" "OBJ" poolOffArgs).map
        (fun pa => pa.head_deployment.map (fun h => h.connection_list)) =
      .ok (some (some
        "\x7b\"0\": \"enc.<bound method PodConfig.k8s_namespace of OBJ>.svc:8081\"\x7d")) ∧
    buildConnectionList 1 "enc" (PodConfig.k8s_namespace poolOffCfg) K8S_PORT_IN =
      "\x7b\"0\": \"enc.ns.svc:8081\"\x7d" ∧
    ("\x7b\"0\": \"enc.<bound method PodConfig.k8s_namespace of OBJ>.svc:8081\"\x7d" : String) ≠
      "\x7b\"0\": \"enc.ns.svc:8081\"\x7d" :=
  ⟨rfl, rfl, by decide⟩

/-- Claim C6, found to be a code bug (same root cause as C3): with pooling
disabled, the resolved output embeds the repr of the pod object (its
address) through the uncalled `k8s_namespace` method, so two resolve calls
over deep-equal specs held by two distinct pod objects (reprs "OBJ-A" and
"OBJ-B") disagree even with the version lookup stubbed to a fixed value. -/
theorem C6_output_depends_on_object_identity :
    to_k8s_yaml poolOffCfg "OBJ-A" "2.0.0" (.ok []) false "ns" none 0 ≠
      to_k8s_yaml poolOffCfg "OBJ-B" "2.0.0" (.ok []) false "ns" none 0 := by
  intro h
  have h2 := congrArg (fun r =>
    match r with
    | Except.ok (p :: _, _) =>
      match p.2 with
      | Yamls.runtime ry => ry.container_args.deployment_args.connection_list
      | Yamls.gateway _ => none
    | _ => (none : Option String)) h
  exact absurd h2 (by decide)
